import Mathlib

/-!
Shallow embedding of the Beacon repository's Trust & Integrity surface:
the security-posture state (SovereignDashboard, config_params seed rows),
the VerdictButton rank-dependent rendering and click handler, the
TruthMeter clamping arithmetic, the audit-log row-level-security
semantics, the Bayesian reputation aggregator (modelled from the spec,
the backend aggregator is not in the repository snapshot), and the
useEntityPulse real-time subscriber hook.
-/

/- ═══════════════ Posture / config (001_initial_schema.sql, TruthMeter.tsx) ═══════════════ -/

/-- Source type `SecurityLevel` in TruthMeter.tsx: the three global
security states of the Panic Gate. -/
inductive SecurityLevel
  | GREEN
  | YELLOW
  | RED
deriving DecidableEq, Repr

/-- Seed rows of `config_params` from 001_initial_schema.sql lines 102-113
(key, value); values are stored as TEXT in the schema. -/
def configParamsInitial : List (String × String) :=
  [ ("SECURITY_LEVEL", "GREEN"),
    ("CAPTCHA_THRESHOLD", "0.01"),
    ("VOTE_WEIGHT_BRONZE", "1.0"),
    ("VOTE_WEIGHT_SILVER", "1.5"),
    ("VOTE_WEIGHT_GOLD", "2.5"),
    ("VOTE_WEIGHT_DIAMOND", "5.0"),
    ("DECAY_HALF_LIFE_DAYS", "180"),
    ("PROBATION_DAYS", "30"),
    ("MAX_VOTES_PER_HOUR", "20"),
    ("SHADOW_BAN_THRESHOLD", "0.2") ]

/-- Initial posture state of `SovereignDashboard` (TruthMeter.tsx line 312):
`useState<SecurityLevel>("GREEN")`. -/
def SovereignDashboard.initialSecurityLevel : SecurityLevel := .GREEN

/-- Posture state of `SovereignDashboard` after a sequence of
`setSecurityLevel` operator commands (the `onLevelChange` callback wired to
`SecuritySemaphore`); with no commands the state is the `useState` initial
value. -/
def SovereignDashboard.securityLevelAfter (commands : List SecurityLevel) : SecurityLevel :=
  commands.foldl (fun _ lvl => lvl) SovereignDashboard.initialSecurityLevel

/- ═══════════════ VerdictButton.tsx and entities/[id]/page.tsx ═══════════════ -/

/-- Source type `UserRank` (VerdictButton.tsx line 19 and
entities/[id]/page.tsx line 23). -/
inductive UserRank
  | DISPLACED
  | BRONZE
  | SILVER
  | GOLD
  | DIAMOND
deriving DecidableEq, Repr

/-- Source type `VerdictType` (entities/[id]/page.tsx line 100). -/
structure VerdictType where
  label : String
  color : String
  weight : String
deriving DecidableEq, Repr

/-- `VERDICT_LABELS` record (entities/[id]/page.tsx lines 101-107). -/
def VERDICT_LABELS : UserRank → VerdictType
  | .DISPLACED => { label := "Pulso Social", color := "#555", weight := "0x" }
  | .BRONZE => { label := "Voto Estándar", color := "#cd7f32", weight := "1x" }
  | .SILVER => { label := "Veredicto Certificado", color := "#C0C0C0", weight := "1.5x" }
  | .GOLD => { label := "Veredicto Magistral", color := "#D4AF37", weight := "2.5x" }
  | .DIAMOND => { label := "Sentencia Suprema", color := "#b9f2ff", weight := "5x" }

/-- Observable shape of the button element `VerdictButton` returns for a
given rank: whether the rendered button carries the `disabled` attribute,
whether an `onClick` handler is attached, the main caption, and the small
subtitle line when one is rendered. -/
structure ButtonView where
  disabled : Bool
  hasClickHandler : Bool
  mainText : String
  subText : Option String
deriving DecidableEq, Repr

/-- Subtitle line of the GOLD / DIAMOND button (VerdictButton.tsx line 222);
`isGold` selects the final word exactly as the JSX ternary does. The weight
figure "2.5x" is hardcoded in this string for both ranks. -/
def goldDiamondSubtitle (isGold : Bool) : String :=
  "Peso 2.5x · Anclado al inicio · Resaltado en " ++ (if isGold then "oro" else "diamante")

/-- Rendering of `VerdictButton` by rank (VerdictButton.tsx lines 107-228):
DISPLACED gets a `disabled` button with the lockout copy and no `onClick`;
BRONZE and SILVER get plain enabled buttons; GOLD and DIAMOND get the
massive button with the hardcoded weight subtitle. -/
def VerdictButton : UserRank → ButtonView
  | .DISPLACED =>
      { disabled := true, hasClickHandler := false,
        mainText := "Tu voz no tiene peso aquí.",
        subText := some "Alíneate con el búnker para votar." }
  | .BRONZE =>
      { disabled := false, hasClickHandler := true,
        mainText := "Emitir Voto Estándar", subText := none }
  | .SILVER =>
      { disabled := false, hasClickHandler := true,
        mainText := "✓ Emitir Veredicto Certificado", subText := none }
  | .GOLD =>
      { disabled := false, hasClickHandler := true,
        mainText := "Emitir Veredicto Magistral",
        subText := some (goldDiamondSubtitle true) }
  | .DIAMOND =>
      { disabled := false, hasClickHandler := true,
        mainText := "Emitir Veredicto Magistral",
        subText := some (goldDiamondSubtitle false) }

/-- Effects one invocation of `handleClick` (VerdictButton.tsx lines 98-104)
produces: whether `fireParticles` ran and whether the `onVerdict` callback
was invoked. -/
structure ClickEffects where
  firedParticles : Bool
  invokedOnVerdict : Bool
deriving DecidableEq, Repr

/-- `handleClick` (VerdictButton.tsx lines 98-104): DISPLACED returns
before anything else; GOLD and DIAMOND fire particles then invoke
`onVerdict`; the remaining ranks just invoke `onVerdict`. -/
def handleClick : UserRank → ClickEffects
  | .DISPLACED => { firedParticles := false, invokedOnVerdict := false }
  | .GOLD => { firedParticles := true, invokedOnVerdict := true }
  | .DIAMOND => { firedParticles := true, invokedOnVerdict := true }
  | _ => { firedParticles := false, invokedOnVerdict := true }

/- ═══════════════ TruthMeter.tsx lines 24-40 ═══════════════ -/

/-- `clampedValue` (TruthMeter.tsx line 25): `Math.min(100, Math.max(0, value))`.
The rendered percentage (line 100) is this value verbatim. -/
def clampedValue (value : ℚ) : ℚ := min 100 (max 0 value)

/-- `dashOffset` (TruthMeter.tsx line 29):
`circumference - (clampedValue / 100) * circumference`; `circumference` is
the runtime float `2 * Math.PI * radius`, taken here as a parameter. -/
def dashOffset (circumference value : ℚ) : ℚ :=
  circumference - clampedValue value / 100 * circumference

/- ═══════════════ Audit log (001_initial_schema.sql, unnamed/part_000) ═══════════════ -/

/-- One row of `audit_logs` (001_initial_schema.sql lines 72-80), plus the
`severity` column that `fn_audit_config_change` writes (unnamed/part_000
line 33; 001 itself declares no such column — a latent insert mismatch that
does not affect the append-only policies modelled below). `details` (JSONB)
is kept as a list of string key/value pairs. -/
structure AuditRecord where
  actor_id : String
  action : String
  entity_type : Option String
  entity_id : Option String
  details : List (String × String)
  severity : Option String
  created_at : Nat
deriving DecidableEq, Repr

/-- RLS policy `audit_insert_service` (001 lines 148-150): `WITH CHECK (true)`. -/
def audit_insert_service_check (_r : AuditRecord) : Bool := true

/-- RLS policy `audit_no_delete` (001 lines 153-155): `USING (false)` —
no existing row qualifies for DELETE. -/
def audit_no_delete_using (_r : AuditRecord) : Bool := false

/-- RLS policy `audit_no_update` (001 lines 158-160): `USING (false)` —
no existing row qualifies for UPDATE. -/
def audit_no_update_using (_r : AuditRecord) : Bool := false

/-- The SQL statements that can address `audit_logs`: INSERT of one row,
UPDATE applying a row transformation, DELETE. -/
inductive AuditOp
  | insert (r : AuditRecord)
  | update (f : AuditRecord → AuditRecord)
  | delete

/-- Row-level-security semantics of one statement against the log:
INSERT appends when the `WITH CHECK` expression accepts the new row;
UPDATE rewrites exactly the rows its `USING` expression selects;
DELETE removes exactly the rows its `USING` expression selects. -/
def applyAuditOp (log : List AuditRecord) : AuditOp → List AuditRecord
  | .insert r => if audit_insert_service_check r then log ++ [r] else log
  | .update f => log.map (fun r => if audit_no_update_using r then f r else r)
  | .delete => log.filter (fun r => !audit_no_delete_using r)

/-- Effect of a whole sequence of statements on the audit log. -/
def applyAuditOps (log : List AuditRecord) (ops : List AuditOp) : List AuditRecord :=
  ops.foldl applyAuditOp log

/-- A `config_params` row (001 lines 91-97), as seen by the trigger as OLD
and NEW. -/
structure ConfigParamsRow where
  key : String
  value : String
  description : Option String
  updated_by : Option String
deriving DecidableEq, Repr

/-- Severity CASE of `fn_audit_config_change` (unnamed/part_000 lines 46-50).
SQL `LIKE 'VOTE_WEIGHT_%'` is modelled as a string-start test; `_` is a
one-character LIKE wildcard, but every key the repository writes spells the
underscore literally, so the two tests agree on this configuration space. -/
def configChangeSeverity (key : String) : String :=
  if key = "SECURITY_LEVEL" ∨ key = "SHADOW_BAN_THRESHOLD" then "CRITICAL"
  else if String.startsWith key "VOTE_WEIGHT_" then "HIGH"
  else "MEDIUM"

/-- `fn_audit_config_change` (unnamed/part_000 lines 23-55): the AFTER
UPDATE trigger on `config_params` emits exactly one INSERT into
`audit_logs`, built from the OLD and NEW rows. -/
def fn_audit_config_change (old new : ConfigParamsRow) (now : Nat) : AuditOp :=
  .insert
    { actor_id := new.updated_by.getD "UNKNOWN",
      action := "CONFIG_PARAM_CHANGED",
      entity_type := some "CONFIG",
      entity_id := some new.key,
      details :=
        [ ("key", new.key),
          ("old_value", old.value),
          ("new_value", new.value),
          ("changed_by", new.updated_by.getD "UNKNOWN"),
          ("description", new.description.getD "") ],
      severity := some (configChangeSeverity new.key),
      created_at := now }

/- ═══════════════ Reputation Aggregator (modelled from the spec) ═══════════════ -/

/-- Modelled from the spec: one effective ballot's contribution, its
weight-at-cast-time and its value on the 0-5 scale. The Ballot Box and
Reputation Aggregator backend is absent from the repository snapshot; only
the `entities.reputation_score` column (002_entities_schema.sql lines
148-150, FLOAT DEFAULT 3.0) declares the published result. -/
structure Ballot where
  weight : ℚ
  value : ℚ
deriving DecidableEq, Repr

/-- Modelled from the spec: `sum(weightedVotes)` over the accumulated
effective ballots. -/
def weightedSum (ballots : List Ballot) : ℚ :=
  (ballots.map (fun b => b.weight * b.value)).sum

/-- Modelled from the spec: `totalWeight`, the sum of the ballots' weights. -/
def totalWeight (ballots : List Ballot) : ℚ :=
  (ballots.map (fun b => b.weight)).sum

/-- Modelled from the spec: Bayesian shrinkage,
`reputationScore = (priorWeight × priorMean + sum(weightedVotes)) / (priorWeight + totalWeight)`,
with prior strength `m` and prior mean `C` (documented defaults m=30,
C=3.0 — also printed by the frontend: "BAYESIAN · m=30 · C=3.0"). -/
def reputationScore (m C : ℚ) (ballots : List Ballot) : ℚ :=
  (m * C + weightedSum ballots) / (m + totalWeight ballots)

/-- Column default of `entities.reputation_score`
(002_entities_schema.sql line 149: `FLOAT DEFAULT 3.0`). -/
def entitiesReputationScoreDefault : ℚ := 3

/- ═══════════════ useEntityPulse (unnamed/part_004) ═══════════════ -/

/-- Source interface `PulseEvent` (unnamed/part_004 lines 25-34): the
payload of one WebSocket message. -/
structure PulseEvent where
  type : String
  entity_id : String
  new_score : ℚ
  total_votes : ℤ
  integrity_index : ℚ
  is_gold_verdict : Bool
  voter_rank : String
  timestamp : String
deriving DecidableEq, Repr

/-- Source interface `PulseState` (unnamed/part_004 lines 37-52): the
hook's state record. -/
structure PulseState where
  score : Option ℚ
  totalVotes : Option ℤ
  integrityIndex : Option ℚ
  isGoldExplosion : Bool
  lastVoterRank : Option String
  isConnected : Bool
  lastPulseAt : Option String
deriving DecidableEq, Repr

/-- `handleMessage` (unnamed/part_004 lines 88-122) as a state transformer.
The argument is the outcome of `JSON.parse` on `event.data`: `none` when
parsing threw (the `catch` arm, which only logs a warning), `some data`
otherwise. A parsed message whose `type` is not "VERDICT_PULSE" hits the
early `return`; only the remaining messages reach `setState`. -/
def handleMessage (msg : Option PulseEvent) (prev : PulseState) : PulseState :=
  match msg with
  | none => prev
  | some data =>
      if data.type ≠ "VERDICT_PULSE" then prev
      else
        { prev with
          score := some data.new_score,
          totalVotes := some data.total_votes,
          integrityIndex := some data.integrity_index,
          lastVoterRank := some data.voter_rank,
          lastPulseAt := some data.timestamp,
          isGoldExplosion := data.is_gold_verdict }

/-- Commands the hook can issue on the WebSocket object. -/
inductive SocketCmd
  | connect (url : String)
  | close
  | send (data : String)
deriving DecidableEq, Repr

/-- Runtime events delivered to the hook's socket handlers
(unnamed/part_004 lines 134-153), plus the effect cleanup (lines 161-169). -/
inductive HookEvent
  | onopen
  | onmessage (data : String)
  | onclose
  | onerror
  | cleanup
deriving DecidableEq, Repr

/-- WebSocket URL built by the effect (unnamed/part_004 line 128). -/
def pulseUrl (wsBaseUrl entityId : String) : String :=
  wsBaseUrl ++ "/api/v1/realtime/pulse/" ++ entityId

/-- Socket commands each handler issues (unnamed/part_004 lines 131-169):
`onopen`, `onmessage` and `onerror` only touch React state or the console;
`onclose` schedules `connect` again when `autoReconnect` is set; the effect
cleanup clears the timers and closes the socket. No handler ever calls
`ws.send`. -/
def useEntityPulseHandlerCmds (url : String) (autoReconnect : Bool) :
    HookEvent → List SocketCmd
  | .onopen => []
  | .onmessage _ => []
  | .onclose => if autoReconnect then [.connect url] else []
  | .onerror => []
  | .cleanup => [.close]

/-- Full command trace of one mounted `useEntityPulse` subscription: the
initial `connect` (line 158) followed by whatever the handlers issue for
the delivered events. -/
def useEntityPulseCmds (wsBaseUrl entityId : String) (autoReconnect : Bool)
    (events : List HookEvent) : List SocketCmd :=
  .connect (pulseUrl wsBaseUrl entityId) ::
    events.foldr
      (fun e acc => useEntityPulseHandlerCmds (pulseUrl wsBaseUrl entityId) autoReconnect e ++ acc)
      []

/-- The data the engine side could ever read off this channel from the
subscriber: the payloads of the subscriber's `send` commands. -/
def engineInboundMessages (cmds : List SocketCmd) : List String :=
  cmds.filterMap (fun c =>
    match c with
    | .send d => some d
    | _ => none)

/- ═══════════════ Helper lemmas ═══════════════ -/

/-- Every single statement on the audit log leaves the existing rows in
place and can only append. -/
theorem applyAuditOp_append (log : List AuditRecord) (op : AuditOp) :
    ∃ appended, applyAuditOp log op = log ++ appended := by
  cases op with
  | insert r => exact ⟨[r], by simp [applyAuditOp, audit_insert_service_check]⟩
  | update f => exact ⟨[], by simp [applyAuditOp, audit_no_update_using]⟩
  | delete => exact ⟨[], by simp [applyAuditOp, audit_no_delete_using]⟩

/-- Sum of the weights of a list of ballots with nonnegative weights is
nonnegative. -/
theorem totalWeight_nonneg (bs : List Ballot) (h : ∀ b ∈ bs, 0 ≤ b.weight) :
    0 ≤ totalWeight bs := by
  induction bs with
  | nil => simp [totalWeight]
  | cons b bs ih =>
      have hb := h b (List.mem_cons_self b bs)
      have ht := ih (fun x hx => h x (List.mem_cons_of_mem b hx))
      simp only [totalWeight, List.map_cons, List.sum_cons] at ht ⊢
      linarith

/-- The weighted sum of ballots with nonnegative weights and values is
nonnegative. -/
theorem weightedSum_nonneg (bs : List Ballot)
    (h : ∀ b ∈ bs, 0 ≤ b.weight ∧ 0 ≤ b.value) : 0 ≤ weightedSum bs := by
  induction bs with
  | nil => simp [weightedSum]
  | cons b bs ih =>
      obtain ⟨hw, hv⟩ := h b (List.mem_cons_self b bs)
      have ht := ih (fun x hx => h x (List.mem_cons_of_mem b hx))
      simp only [weightedSum, List.map_cons, List.sum_cons] at ht ⊢
      nlinarith

/-- The weighted sum of ballots whose values stay on the 0-5 scale is at
most five times the total weight. -/
theorem weightedSum_le_five_mul (bs : List Ballot)
    (h : ∀ b ∈ bs, 0 ≤ b.weight ∧ b.value ≤ 5) :
    weightedSum bs ≤ 5 * totalWeight bs := by
  induction bs with
  | nil => simp [weightedSum, totalWeight]
  | cons b bs ih =>
      obtain ⟨hw, hv⟩ := h b (List.mem_cons_self b bs)
      have ht := ih (fun x hx => h x (List.mem_cons_of_mem b hx))
      simp only [weightedSum, totalWeight, List.map_cons, List.sum_cons] at ht ⊢
      nlinarith

/-- No socket handler of `useEntityPulse` ever issues a `send` command. -/
theorem handlerCmds_send_free (url : String) (autoReconnect : Bool) (e : HookEvent) :
    engineInboundMessages (useEntityPulseHandlerCmds url autoReconnect e) = [] := by
  cases e <;> cases autoReconnect <;>
    simp [useEntityPulseHandlerCmds, engineInboundMessages]

/- ═══════════════ Claim theorems ═══════════════ -/

/-- C1 counterexample: at process startup — before any operator command,
and without the dashboard ever contacting any shared cache — the posture
value the code serves is GREEN, not YELLOW: `SovereignDashboard` starts
from `useState("GREEN")` and the `config_params` seed sets
SECURITY_LEVEL to 'GREEN'. This falsifies "reading the posture returns
YELLOW — never GREEN" at startup. -/
theorem C1_startup_posture_is_green_not_yellow :
    SovereignDashboard.securityLevelAfter [] ≠ SecurityLevel.YELLOW ∧
    SovereignDashboard.securityLevelAfter [] = SecurityLevel.GREEN ∧
    List.lookup "SECURITY_LEVEL" configParamsInitial = some "GREEN" := by
  refine ⟨by decide, rfl, by decide⟩

/-- C1 amended: at process startup the posture value in the repository's
code is GREEN — the `config_params` SECURITY_LEVEL seed and the
dashboard's initial `useState` value — and it stays whatever the operator
last set; no YELLOW fail-safe read path exists in the code. -/
theorem C1_amended_startup_default_green :
    SovereignDashboard.securityLevelAfter [] = SecurityLevel.GREEN ∧
    List.lookup "SECURITY_LEVEL" configParamsInitial = some "GREEN" ∧
    ∀ (commands : List SecurityLevel) (lvl : SecurityLevel),
      SovereignDashboard.securityLevelAfter (commands ++ [lvl]) = lvl := by
  refine ⟨rfl, by decide, ?_⟩
  intro commands lvl
  simp [SovereignDashboard.securityLevelAfter]

/-- C2 counterexample: a DISPLACED caller's rendered response is
distinguishable from a HUMAN-rank caller's — the DISPLACED branch renders
a disabled button with the explicit lockout copy "Tu voz no tiene peso
aquí.", unlike the enabled standard button a BRONZE caller receives. -/
theorem C2_displaced_response_distinguishable :
    VerdictButton .DISPLACED ≠ VerdictButton .BRONZE ∧
    (VerdictButton .DISPLACED).disabled = true ∧
    (VerdictButton .DISPLACED).mainText = "Tu voz no tiene peso aquí." := by
  refine ⟨by decide, rfl, rfl⟩

/-- C2 amended: a DISPLACED caller is shown an explicitly distinct,
disabled lockout button ("Tu voz no tiene peso aquí.") with no click
handler, different from the enabled button every other rank receives, and
the `onVerdict` callback is never invoked for DISPLACED. -/
theorem C2_amended_displaced_explicit_lockout :
    (VerdictButton .DISPLACED).disabled = true ∧
    (VerdictButton .DISPLACED).hasClickHandler = false ∧
    (handleClick .DISPLACED).invokedOnVerdict = false ∧
    ∀ r : UserRank, r ≠ .DISPLACED →
      (VerdictButton r).disabled = false ∧ VerdictButton r ≠ VerdictButton .DISPLACED := by
  refine ⟨rfl, rfl, rfl, ?_⟩
  intro r hr
  cases r with
  | DISPLACED => exact absurd rfl hr
  | BRONZE => exact ⟨rfl, by decide⟩
  | SILVER => exact ⟨rfl, by decide⟩
  | GOLD => exact ⟨rfl, by decide⟩
  | DIAMOND => exact ⟨rfl, by decide⟩

/-- C2 amended, witness at BRONZE. -/
theorem C2_amended_witness :
    (VerdictButton .BRONZE).disabled = false ∧
    VerdictButton .BRONZE ≠ VerdictButton .DISPLACED :=
  C2_amended_displaced_explicit_lockout.2.2.2 .BRONZE (by decide)

/-- C3: the audit log is append-only. The config-change trigger only ever
emits an INSERT, and, under the row-level-security policies
`audit_insert_service`, `audit_no_update` and `audit_no_delete`, every
sequence of statements leaves the already-written records untouched in
place — the log after any sequence is the old log plus appended rows, so
no update path and no delete path exists for audit records. -/
theorem C3_audit_log_append_only :
    (∀ (old new : ConfigParamsRow) (now : Nat),
      ∃ r, fn_audit_config_change old new now = AuditOp.insert r) ∧
    ∀ (log : List AuditRecord) (ops : List AuditOp),
      ∃ appended, applyAuditOps log ops = log ++ appended := by
  constructor
  · intro old new now
    exact ⟨_, rfl⟩
  · intro log ops
    induction ops generalizing log with
    | nil => exact ⟨[], by simp [applyAuditOps]⟩
    | cons op ops ih =>
        obtain ⟨e1, h1⟩ := applyAuditOp_append log op
        obtain ⟨e2, h2⟩ := ih (applyAuditOp log op)
        refine ⟨e1 ++ e2, ?_⟩
        simp only [applyAuditOps, List.foldl_cons] at h2 ⊢
        rw [h2, h1, List.append_assoc]

/-- C4: for every prior strength m > 0, prior mean C in [0, 5] and every
list of committed ballots with nonnegative weights and values on the 0-5
scale, the published Bayesian reputation score stays within [0, 5]. -/
theorem C4_reputation_score_bounded (m C : ℚ) (bs : List Ballot)
    (hm : 0 < m) (hC0 : 0 ≤ C) (hC5 : C ≤ 5)
    (hb : ∀ b ∈ bs, 0 ≤ b.weight ∧ 0 ≤ b.value ∧ b.value ≤ 5) :
    0 ≤ reputationScore m C bs ∧ reputationScore m C bs ≤ 5 := by
  have hW : 0 ≤ totalWeight bs :=
    totalWeight_nonneg bs (fun b hbm => (hb b hbm).1)
  have hS0 : 0 ≤ weightedSum bs :=
    weightedSum_nonneg bs (fun b hbm => ⟨(hb b hbm).1, (hb b hbm).2.1⟩)
  have hS5 : weightedSum bs ≤ 5 * totalWeight bs :=
    weightedSum_le_five_mul bs (fun b hbm => ⟨(hb b hbm).1, (hb b hbm).2.2⟩)
  have hden : 0 < m + totalWeight bs := by linarith
  constructor
  · apply div_nonneg _ (le_of_lt hden)
    nlinarith
  · rw [reputationScore, div_le_iff₀ hden]
    nlinarith

/-- C4 witness: one BRONZE-weight ballot of value 5 under the default
prior m=30, C=3 keeps the score inside [0, 5]. -/
theorem C4_witness :
    0 ≤ reputationScore 30 3 [⟨1, 5⟩] ∧ reputationScore 30 3 [⟨1, 5⟩] ≤ 5 :=
  C4_reputation_score_bounded 30 3 [⟨1, 5⟩] (by norm_num) (by norm_num) (by norm_num)
    (by
      intro b hbm
      simp only [List.mem_singleton] at hbm
      subst hbm
      refine ⟨by norm_num, by norm_num, by norm_num⟩)

/-- C5: a target with zero accumulated votes under the default prior
strength m=30 and prior mean C=3.0 has reputation score exactly 3 — the
shrinkage formula reduces to the prior mean, matching the
`entities.reputation_score` column default of 3.0. -/
theorem C5_zero_votes_score_is_prior_mean :
    reputationScore 30 3 [] = entitiesReputationScoreDefault ∧
    entitiesReputationScoreDefault = 3 := by
  constructor
  · norm_num [reputationScore, weightedSum, totalWeight, entitiesReputationScoreDefault]
  · rfl

/-- C6: evaluation at the failing input. The default configuration and
`VERDICT_LABELS` both give DIAMOND the vote-weight multiplier 5.0 / "5x",
yet the button rendered for a DIAMOND user advertises "Peso 2.5x" — the
GOLD figure — in its subtitle: the display contradicts the repository's
own configuration. -/
theorem C6_diamond_weight_display_divergence :
    List.lookup "VOTE_WEIGHT_DIAMOND" configParamsInitial = some "5.0" ∧
    (VERDICT_LABELS .DIAMOND).weight = "5x" ∧
    (VerdictButton .DIAMOND).subText =
      some "Peso 2.5x · Anclado al inicio · Resaltado en diamante" ∧
    List.lookup "VOTE_WEIGHT_GOLD" configParamsInitial = some "2.5" ∧
    (VerdictButton .GOLD).subText =
      some "Peso 2.5x · Anclado al inicio · Resaltado en oro" := by
  refine ⟨by decide, rfl, rfl, by decide, rfl⟩

/-- C7: the live-update channel is strictly one-way. Over every event
sequence delivered to a mounted `useEntityPulse` subscription, the
subscriber's socket-command trace contains no `send`, so the set of
messages the engine could read from the subscriber over this channel is
empty. -/
theorem C7_channel_one_way (wsBaseUrl entityId : String) (autoReconnect : Bool)
    (events : List HookEvent) :
    engineInboundMessages
      (useEntityPulseCmds wsBaseUrl entityId autoReconnect events) = [] := by
  simp only [useEntityPulseCmds, engineInboundMessages, List.filterMap_cons]
  induction events with
  | nil => rfl
  | cons e es ih =>
      simp only [List.foldr_cons, List.filterMap_append] at ih ⊢
      have he := handlerCmds_send_free (pulseUrl wsBaseUrl entityId) autoReconnect e
      simp only [engineInboundMessages] at he
      rw [he]
      simpa using ih

/-- C8: for every numeric input value and every circumference constant,
the TruthMeter's displayed integrity percentage equals
min(100, max(0, value)), lies within [0, 100], and the filled part of the
arc is exactly that clamped fraction of the circumference. -/
theorem C8_truthmeter_clamps (value circumference : ℚ) :
    clampedValue value = min 100 (max 0 value) ∧
    0 ≤ clampedValue value ∧ clampedValue value ≤ 100 ∧
    circumference - dashOffset circumference value =
      clampedValue value / 100 * circumference := by
  refine ⟨rfl, ?_, ?_, ?_⟩
  · exact le_min (by norm_num) (le_max_left 0 value)
  · exact min_le_left 100 (max 0 value)
  · simp [dashOffset]

/-- C9: a `VerdictButton` rendered with rank DISPLACED is disabled, has no
click handler attached, and its click handler — were it ever reached —
returns before invoking the `onVerdict` callback or firing particles: the
callback is never invoked for DISPLACED. -/
theorem C9_displaced_never_invokes_onVerdict :
    (VerdictButton .DISPLACED).disabled = true ∧
    (VerdictButton .DISPLACED).hasClickHandler = false ∧
    (handleClick .DISPLACED).invokedOnVerdict = false ∧
    (handleClick .DISPLACED).firedParticles = false :=
  ⟨rfl, rfl, rfl, rfl⟩

/-- C10: every incoming WebSocket message that is not valid JSON (the
parse outcome is `none`) or whose parsed `type` field is not
"VERDICT_PULSE" leaves the entire hook state unchanged, and conversely any
message that changes the state is a parsed VERDICT_PULSE message. -/
theorem C10_only_verdict_pulse_mutates :
    (∀ (msg : Option PulseEvent) (prev : PulseState),
      (msg = none ∨ ∃ e, msg = some e ∧ e.type ≠ "VERDICT_PULSE") →
        handleMessage msg prev = prev) ∧
    ∀ (msg : Option PulseEvent) (prev : PulseState),
      handleMessage msg prev ≠ prev →
        ∃ e, msg = some e ∧ e.type = "VERDICT_PULSE" := by
  constructor
  · intro msg prev h
    rcases h with h | ⟨e, rfl, he⟩
    · rw [h]; rfl
    · simp [handleMessage, he]
  · intro msg prev hne
    cases msg with
    | none => exact absurd rfl hne
    | some e =>
        by_cases he : e.type = "VERDICT_PULSE"
        · exact ⟨e, rfl, he⟩
        · exact absurd (by simp [handleMessage, he]) hne

/-- C10 witness: an invalid-JSON message and a parsed non-pulse message
both leave a concrete state unchanged. -/
theorem C10_witness :
    handleMessage none
      { score := none, totalVotes := none, integrityIndex := none,
        isGoldExplosion := false, lastVoterRank := none,
        isConnected := false, lastPulseAt := none } =
      { score := none, totalVotes := none, integrityIndex := none,
        isGoldExplosion := false, lastVoterRank := none,
        isConnected := false, lastPulseAt := none } ∧
    handleMessage
      (some { type := "PING", entity_id := "e-001", new_score := 4,
              total_votes := 7, integrity_index := 1/2,
              is_gold_verdict := false, voter_rank := "GOLD",
              timestamp := "t0" })
      { score := none, totalVotes := none, integrityIndex := none,
        isGoldExplosion := false, lastVoterRank := none,
        isConnected := false, lastPulseAt := none } =
      { score := none, totalVotes := none, integrityIndex := none,
        isGoldExplosion := false, lastVoterRank := none,
        isConnected := false, lastPulseAt := none } :=
  ⟨C10_only_verdict_pulse_mutates.1 none _ (Or.inl rfl),
   C10_only_verdict_pulse_mutates.1 _ _ (Or.inr ⟨_, rfl, by decide⟩)⟩
